import Mathlib

/-!
Verification development for the tGHSX frontend (valorm/tghsx-frontend).

The repository is a React dashboard for a CDP stablecoin protocol.  The
claims under study concern:

* the `ActionModal.handleConfirm` transaction workflow, which exists in
  three near-duplicate variants:
  - `dashHandleConfirm` — `src/pages/DashboardPage.js` (the first, full
    version in that file);
  - `v1HandleConfirm`  — the variant in `src/unnamed/part_001`;
  - `v2HandleConfirm`  — the variant in `src/unnamed/part_002`;
* the dashboard `fetchData` batch refresh (DashboardPage.js and part_002);
* the transaction-history pagination guard (`TransactionHistoryPage.js`);
* the display formatters `formatCurrency` / `formatNumber`.

Each workflow is embedded as a pure function from its inputs (modal type,
amount string, a `ChainEnv` record holding the outcome of every external
call the code may perform) to a result classification together with the
ordered trace of external calls it issued.  Amount strings are parsed with
faithful models of JavaScript `parseFloat` / `Number` and of ethers v5
`parseUnits` (`parseFixed`).  Floating-point rounding is modelled by exact
rationals; the special values `Infinity` and exotic Unicode whitespace are
outside the model, and JS `Number` prefixes `0o` / `0b` are omitted (none
of these arise from the numeric inputs the pages use).
-/

/-! ### Character and digit utilities -/

def digitNat (c : Char) : Nat := c.toNat - 48

/-- Accumulating decimal-digit scanner: consumes the longest digit run,
returning (value, number of digits consumed, rest). -/
def takeDigitsAux (acc cnt : Nat) : List Char → Nat × Nat × List Char
  | [] => (acc, cnt, [])
  | c :: cs =>
    if c.isDigit then takeDigitsAux (acc * 10 + digitNat c) (cnt + 1) cs
    else (acc, cnt, c :: cs)

/-- Value of a digit string, most significant digit first. -/
def digitsVal (l : List Char) : Nat :=
  l.foldl (fun a c => a * 10 + digitNat c) 0

def isWs (c : Char) : Bool :=
  c == ' ' || c == '\t' || c == '\n' || c == '\r'

def dropLeadingWs (l : List Char) : List Char := l.dropWhile isWs

def trimWsBoth (l : List Char) : List Char :=
  ((l.dropWhile isWs).reverse.dropWhile isWs).reverse

/-- Trailing-zero trimming, as in the `while (fraction[fraction.length-1]
=== "0")` loop of ethers `parseFixed`. -/
def trimTrailingZeros (l : List Char) : List Char :=
  (l.reverse.dropWhile (fun c => c == '0')).reverse

/-- `begins n h` : list `n` occurs at the head of `h`. -/
def begins : List Char → List Char → Bool
  | [], _ => true
  | _ :: _, [] => false
  | a :: as, b :: bs => a == b && begins as bs

/-- Substring occurrence test, the model of JS `String.prototype.includes`. -/
def hasSub (needle : List Char) : List Char → Bool
  | [] => begins needle []
  | h :: t => begins needle (h :: t) || hasSub needle t

def strHas (hay needle : String) : Bool := hasSub needle.data hay.data

/-! ### JavaScript numeric-string semantics -/

/-- A finite JS number value, represented exactly as `num / 10 ^ exp10`.
Every value the numeric-string parsers produce has this decimal fixed-point
form; keeping it over `ℤ`/`ℕ` (instead of `ℚ`, whose arithmetic does not
reduce in the kernel) lets concrete workflow runs evaluate by `decide`. -/
structure JsNum where
  num : ℤ
  exp10 : ℕ
deriving DecidableEq, Repr

/-- The rational value of a parsed JS number. -/
def JsNum.val (q : JsNum) : ℚ := (q.num : ℚ) / 10 ^ q.exp10

/-- The JS comparison `x <= 0` on the represented value (the denominator
`10 ^ exp10` is positive, so only the numerator's sign matters). -/
def JsNum.leZero (q : JsNum) : Bool := decide (q.num ≤ 0)

/-- The JS comparison `x < 0` on the represented value. -/
def JsNum.isNeg (q : JsNum) : Bool := decide (q.num < 0)

/-- Multiplication by `10 ^ e` for a signed exponent. -/
def JsNum.scaleByPow10 (q : JsNum) (e : ℤ) : JsNum :=
  if 0 ≤ e then { num := q.num * 10 ^ e.toNat, exp10 := q.exp10 }
  else { num := q.num, exp10 := q.exp10 + (-e).toNat }

/-- Half-up rounding of `|q| * scale` to a natural number (`Nat` division
is the floor): models the default rounding of `Intl.NumberFormat` and
`toLocaleString` on the magnitude. -/
def JsNum.halfUpScaled (q : JsNum) (scale : ℕ) : ℕ :=
  (2 * scale * q.num.natAbs + 10 ^ q.exp10) / (2 * 10 ^ q.exp10)

/-- Model of JS `parseFloat`: skip leading whitespace, optional sign, then
the longest prefix of the form digits [. digits] [exponent]; `none` models
`NaN` (no digit could be consumed). -/
def jsParseFloat (s : String) : Option JsNum :=
  let l := dropLeadingWs s.data
  let signAndRest : Bool × List Char :=
    match l with
    | '-' :: r => (true, r)
    | '+' :: r => (false, r)
    | r => (false, r)
  let neg := signAndRest.1
  let afterSign := signAndRest.2
  let wScan := takeDigitsAux 0 0 afterSign
  let w := wScan.1
  let wn := wScan.2.1
  let afterWhole := wScan.2.2
  let fScan : Nat × Nat × List Char :=
    match afterWhole with
    | '.' :: r => takeDigitsAux 0 0 r
    | r => (0, 0, r)
  let f := fScan.1
  let fn := fScan.2.1
  let afterFrac := fScan.2.2
  if wn + fn = 0 then none
  else
    let mant : ℤ := (if neg then -1 else 1) * ((w : ℤ) * 10 ^ fn + (f : ℤ))
    let expo : ℤ :=
      match afterFrac with
      | c :: r =>
        if c == 'e' || c == 'E' then
          let esAndRest : ℤ × List Char :=
            match r with
            | '-' :: rr => (-1, rr)
            | '+' :: rr => (1, rr)
            | rr => (1, rr)
          let eScan := takeDigitsAux 0 0 esAndRest.2
          if eScan.2.1 = 0 then 0 else esAndRest.1 * (eScan.1 : ℤ)
        else 0
      | [] => 0
    some (JsNum.scaleByPow10 { num := mant, exp10 := fn } expo)

def hexDigitVal (c : Char) : Option Nat :=
  if c.isDigit then some (digitNat c)
  else if 'a' ≤ c ∧ c ≤ 'f' then some (c.toNat - 87)
  else if 'A' ≤ c ∧ c ≤ 'F' then some (c.toNat - 55)
  else none

def parseHexAll (l : List Char) : Option JsNum :=
  if l = [] then none
  else
    (l.foldl
      (fun acc c =>
        match acc, hexDigitVal c with
        | some v, some d => some (v * 16 + d)
        | _, _ => none)
      (some (0 : ℕ))).map (fun v => { num := (v : ℤ), exp10 := 0 })

/-- Full-string decimal literal, for JS `Number`: [sign] (digits [. digits]
or . digits) [exponent], nothing left over. -/
def parseDecAll (l : List Char) : Option JsNum :=
  let signAndRest : ℤ × List Char :=
    match l with
    | '-' :: r => (-1, r)
    | '+' :: r => (1, r)
    | r => (1, r)
  let sgn := signAndRest.1
  let wScan := takeDigitsAux 0 0 signAndRest.2
  let w := wScan.1
  let wn := wScan.2.1
  let fScan : Nat × Nat × List Char :=
    match wScan.2.2 with
    | '.' :: r => takeDigitsAux 0 0 r
    | r => (0, 0, r)
  let f := fScan.1
  let fn := fScan.2.1
  if wn + fn = 0 then none
  else
    let mant : JsNum := { num := sgn * ((w : ℤ) * 10 ^ fn + (f : ℤ)), exp10 := fn }
    match fScan.2.2 with
    | [] => some mant
    | c :: r =>
      if c == 'e' || c == 'E' then
        let esAndRest : ℤ × List Char :=
          match r with
          | '-' :: rr => (-1, rr)
          | '+' :: rr => (1, rr)
          | rr => (1, rr)
        let eScan := takeDigitsAux 0 0 esAndRest.2
        if eScan.2.1 = 0 ∨ eScan.2.2 ≠ [] then none
        else some (JsNum.scaleByPow10 mant (esAndRest.1 * (eScan.1 : ℤ)))
      else none

/-- Model of JS `Number(string)` (ToNumber): trim whitespace; empty gives 0;
hex `0x` literals; otherwise a full-string decimal literal; `none` is NaN. -/
def jsNumber (s : String) : Option JsNum :=
  let l := trimWsBoth s.data
  match l with
  | [] => some { num := 0, exp10 := 0 }
  | '0' :: 'x' :: rest => parseHexAll rest
  | '0' :: 'X' :: rest => parseHexAll rest
  | _ => parseDecAll l

/-! ### Error objects thrown by ethers / the backend -/

/-- The JS `err.code` field compared against string and numeric constants in
the catch blocks (`'UNPREDICTABLE_GAS_LIMIT'`, `-32603`, `'CALL_EXCEPTION'`). -/
inductive JsCode where
  | str (s : String)
  | num (n : ℤ)
deriving DecidableEq, Repr

/-- Shallow model of a thrown JS error as observed by the catch blocks:
`code`, `reason`, `data.message`, `message`, and the `JSON.stringify(err)`
payload the DashboardPage variant searches for substrings. -/
structure JsError where
  code : Option JsCode
  reason : Option String
  dataMessage : Option String
  message : Option String
  payload : String
deriving DecidableEq, Repr

/-- JS truthiness of an optional string field (`undefined` and `""` are
falsy). -/
def truthy : Option String → Bool
  | some s => s ≠ ""
  | none => false

/-- Error produced by ethers `logger.throwArgumentError`: `reason` and
`message` carry the short message, code `INVALID_ARGUMENT`.  The payload is
modelled by the message text. -/
def ethersArgError (msg : String) : JsError :=
  { code := some (JsCode.str "INVALID_ARGUMENT"), reason := some msg,
    dataMessage := none, message := some msg, payload := msg }

def invalidDecimalErr : JsError := ethersArgError "invalid decimal value"

def missingValueErr : JsError := ethersArgError "missing value"

def tooManyDotsErr : JsError := ethersArgError "too many decimal points"

def fracExceedsErr : JsError := ethersArgError "fractional component exceeds decimals"

/-! ### ethers v5 `parseUnits` (`parseFixed`) -/

def isDigitOrDot (c : Char) : Bool := c.isDigit || c == '.'

/-- `value.split('.')` on character lists. -/
def splitOnDot : List Char → List (List Char)
  | [] => [[]]
  | c :: rest =>
    if c == '.' then [] :: splitOnDot rest
    else
      match splitOnDot rest with
      | [] => [[c]]
      | h :: t => (c :: h) :: t

/-- Model of ethers v5 `parseUnits(value, decimals)` (`parseFixed`):
regex gate `^-?[0-9.]+$`, strip sign, reject a bare `"."`, split into whole
and fraction, substitute `"0"` for empty components, trim trailing zeros of
the fraction, reject fractions longer than `decimals`, right-pad with zeros
and combine.  Throwing is modelled by `Except.error`. -/
def parseUnits (s : String) (decimals : Nat) : Except JsError ℤ :=
  let neg : Bool := s.data.head? = some '-'
  let t := if neg then s.data.tail else s.data
  if t = [] ∨ ¬ (t.all isDigitOrDot = true) then Except.error invalidDecimalErr
  else if t = ['.'] then Except.error missingValueErr
  else
    match splitOnDot t with
    | [w, f] =>
      let whole := if w = [] then ['0'] else w
      let fraction0 := if f = [] then ['0'] else f
      let ftrim := trimTrailingZeros fraction0
      if decimals < ftrim.length then Except.error fracExceedsErr
      else
        let ffix := if ftrim = [] then ['0'] else ftrim
        let fpad := ffix ++ List.replicate (decimals - ffix.length) '0'
        let wei : ℤ := (digitsVal whole : ℤ) * 10 ^ decimals + (digitsVal fpad : ℤ)
        Except.ok (if neg then -wei else wei)
    | [w] =>
      let whole := if w = [] then ['0'] else w
      let fpad := '0' :: List.replicate (decimals - 1) '0'
      let wei : ℤ := (digitsVal whole : ℤ) * 10 ^ decimals + (digitsVal fpad : ℤ)
      Except.ok (if neg then -wei else wei)
    | _ => Except.error tooManyDotsErr

/-- ethers v5 `formatUnits(value, 6)`, used in the DashboardPage
insufficient-balance message: whole part, a dot, then the fraction with
trailing zeros trimmed but at least one digit kept. -/
def formatUnits6 (v : ℤ) : String :=
  let m := v.natAbs
  let whole := (toString (m / 1000000)).data
  let fracDigits := (toString (m % 1000000)).data
  let padded := List.replicate (6 - fracDigits.length) '0' ++ fracDigits
  let trimmed := match trimTrailingZeros padded with
    | [] => ['0']
    | r => r
  ⟨(if v < 0 then ['-'] else []) ++ whole ++ '.' :: trimmed⟩

/-! ### Transaction workflow: data model -/

/-- The `modalType` values of the action modal. -/
inductive ModalType where
  | deposit | withdraw | mint | repay | autoMint
deriving DecidableEq, Repr

/-- External calls the workflow can issue, in submission order.  Read calls
(`balanceOf`, `collateralConfigs`), state-changing submissions (`approve`
and the five vault methods), confirmation waits, the backend eligibility
POST of part_002, and the `onSuccess` refresh callback. -/
inductive Ev where
  | balanceOf
  | collateralConfigs
  | approve (amt : ℤ)
  | approveWait
  | depositCall (amt : ℤ)
  | withdrawCall (amt : ℤ)
  | mintCall (amt : ℤ)
  | burnCall (amt : ℤ)
  | autoMintCall
  | txWait
  | eligibilityPost
  | refresh
deriving DecidableEq, Repr

def Ev.isApprove : Ev → Bool
  | .approve _ => true
  | _ => false

def Ev.isApproveWait : Ev → Bool
  | .approveWait => true
  | _ => false

def Ev.isBalanceOf : Ev → Bool
  | .balanceOf => true
  | _ => false

def Ev.isDepositOrBurn : Ev → Bool
  | .depositCall _ => true
  | .burnCall _ => true
  | _ => false

/-- State-changing contract submissions (approve and the vault methods). -/
def Ev.isContractCall : Ev → Bool
  | .approve _ => true
  | .depositCall _ => true
  | .withdrawCall _ => true
  | .mintCall _ => true
  | .burnCall _ => true
  | .autoMintCall => true
  | _ => false

def Ev.isElig : Ev → Bool
  | .eligibilityPost => true
  | _ => false

def Ev.isRefresh : Ev → Bool
  | .refresh => true
  | _ => false

/-- Backend response of the part_002 `POST /mint/auto` eligibility call:
`res.ok` together with the parsed `detail` field of the JSON body. -/
structure EligResp where
  ok : Bool
  detail : Option String
deriving Repr

/-- Outcomes of the external calls an invocation may perform.  Each awaited
promise either resolves (`Except.ok`) or rejects with a `JsError`. -/
structure ChainEnv where
  balanceRes : Except JsError ℤ
  cfgRes : Except JsError Nat
  approveRes : Except JsError Unit
  approveWaitRes : Except JsError Unit
  primaryRes : Except JsError Unit
  waitRes : Except JsError Unit
  eligRes : Except JsError EligResp

/-! ### Result classifications, one constructor per message assignment -/

/-- DashboardPage.js `ActionModal`: each constructor corresponds to one
assignment of `status.error` / `status.success` (see `dashMessage`). -/
inductive DashResult where
  | amountRequired
  | invalidAmount
  | insufficientBalance (bal : ℤ)
  | staleBySelector
  | gasEstimate
  | contractReason (r : String)
  | staleByText
  | unknown
  | success
deriving DecidableEq, Repr

/-- The exact user-facing strings of DashboardPage.js. -/
def dashMessage : DashResult → String
  | .amountRequired => "Amount is required."
  | .invalidAmount => "Please enter a valid amount greater than zero."
  | .insufficientBalance b =>
      "Insufficient USDC balance. You have " ++ formatUnits6 b ++ " USDC."
  | .staleBySelector =>
      "Transaction failed: The oracle price for this asset is outdated. Please wait for the price to update and try again."
  | .gasEstimate =>
      "Cannot estimate gas. The transaction is likely to fail. This could be due to insufficient funds, an on-chain issue like stale prices, or another contract error."
  | .contractReason r => "Transaction failed: " ++ r
  | .staleByText =>
      "Transaction failed: The oracle price for this asset is outdated."
  | .unknown => "An unknown error occurred. Please check the console."
  | .success => "Transaction successful!"

/-- part_001 `ActionModal`: 'Enter a valid amount', 'Gas estimate failed.',
the verbatim `err.reason`, 'Unknown error.', or 'Success!'. -/
inductive V1Result where
  | invalidAmount
  | gasEstimate
  | contractReason (r : String)
  | unknown
  | success
deriving DecidableEq, Repr

/-- part_002 `ActionModal`: validation messages, a catch-derived message
string, or success. -/
inductive V2Result where
  | amountRequired
  | invalidAmount
  | errMsg (s : String)
  | success
deriving DecidableEq, Repr

/-- The `err.code === 'UNPREDICTABLE_GAS_LIMIT' || err.code === -32603 ||
err.code === 'CALL_EXCEPTION'` test of DashboardPage.js. -/
def gasCode (c : Option JsCode) : Bool :=
  c = some (JsCode.str "UNPREDICTABLE_GAS_LIMIT") ||
  c = some (JsCode.num (-32603)) ||
  c = some (JsCode.str "CALL_EXCEPTION")

/-- The DashboardPage.js catch block: gas-code errors check the payload for
the PriceStale custom-error selector; otherwise a truthy `err.reason` is
surfaced verbatim; otherwise the payload is searched for the text
"PriceStale"; otherwise the generic unknown message stands. -/
def classifyDash (e : JsError) : DashResult :=
  if gasCode e.code = true then
    if strHas e.payload "0xe450d38c" = true then DashResult.staleBySelector
    else DashResult.gasEstimate
  else if truthy e.reason = true then DashResult.contractReason (e.reason.getD "")
  else if strHas e.payload "PriceStale" = true then DashResult.staleByText
  else DashResult.unknown

/-- The part_001 catch block. -/
def classifyV1 (e : JsError) : V1Result :=
  if e.code = some (JsCode.str "UNPREDICTABLE_GAS_LIMIT") then V1Result.gasEstimate
  else if truthy e.reason = true then V1Result.contractReason (e.reason.getD "")
  else V1Result.unknown

/-- The part_002 catch block:
`err?.reason || err?.data?.message || err.message || "Transaction failed."`. -/
def classifyV2 (e : JsError) : String :=
  if truthy e.reason = true then e.reason.getD ""
  else if truthy e.dataMessage = true then e.dataMessage.getD ""
  else if truthy e.message = true then e.message.getD ""
  else "Transaction failed."

/-- `err.detail || 'Auto-mint validation failed'` for the part_002
auto-mint eligibility rejection. -/
def detailOr (d : Option String) : String :=
  match d with
  | some s => if s = "" then "Auto-mint validation failed" else s
  | none => "Auto-mint validation failed"

/-- `isNaN(parseFloat(amount)) || parseFloat(amount) <= 0` (NaN fails the
first disjunct; all comparisons with NaN are false). -/
def parseFloatInvalid (o : Option JsNum) : Bool :=
  match o with
  | none => true
  | some q => q.leZero

/-- `Number(amount) <= 0`: false when `Number(amount)` is NaN. -/
def jsLeZero (o : Option JsNum) : Bool :=
  match o with
  | none => false
  | some q => q.leZero

/-! ### DashboardPage.js `ActionModal.handleConfirm` -/

/-- Deposit branch of DashboardPage.js after a successful `parseUnits`:
`balanceOf` pre-flight, then approve → wait → `depositCollateral` → wait →
refresh.  Each leaf lists the calls issued up to that point. -/
def dashDeposit (p : ℤ) (env : ChainEnv) : DashResult × List Ev :=
  match env.balanceRes with
  | Except.error e => (classifyDash e, [Ev.balanceOf])
  | Except.ok bal =>
    if bal < p then (DashResult.insufficientBalance bal, [Ev.balanceOf])
    else
      match env.approveRes with
      | Except.error e => (classifyDash e, [Ev.balanceOf, Ev.approve p])
      | Except.ok _ =>
        match env.approveWaitRes with
        | Except.error e => (classifyDash e, [Ev.balanceOf, Ev.approve p, Ev.approveWait])
        | Except.ok _ =>
          match env.primaryRes with
          | Except.error e =>
              (classifyDash e,
               [Ev.balanceOf, Ev.approve p, Ev.approveWait, Ev.depositCall p])
          | Except.ok _ =>
            match env.waitRes with
            | Except.error e =>
                (classifyDash e,
                 [Ev.balanceOf, Ev.approve p, Ev.approveWait, Ev.depositCall p, Ev.txWait])
            | Except.ok _ =>
                (DashResult.success,
                 [Ev.balanceOf, Ev.approve p, Ev.approveWait, Ev.depositCall p, Ev.txWait,
                  Ev.refresh])

/-- Repay branch of DashboardPage.js: identical to deposit but the primary
call is `burnTokens`. -/
def dashRepay (p : ℤ) (env : ChainEnv) : DashResult × List Ev :=
  match env.balanceRes with
  | Except.error e => (classifyDash e, [Ev.balanceOf])
  | Except.ok bal =>
    if bal < p then (DashResult.insufficientBalance bal, [Ev.balanceOf])
    else
      match env.approveRes with
      | Except.error e => (classifyDash e, [Ev.balanceOf, Ev.approve p])
      | Except.ok _ =>
        match env.approveWaitRes with
        | Except.error e => (classifyDash e, [Ev.balanceOf, Ev.approve p, Ev.approveWait])
        | Except.ok _ =>
          match env.primaryRes with
          | Except.error e =>
              (classifyDash e,
               [Ev.balanceOf, Ev.approve p, Ev.approveWait, Ev.burnCall p])
          | Except.ok _ =>
            match env.waitRes with
            | Except.error e =>
                (classifyDash e,
                 [Ev.balanceOf, Ev.approve p, Ev.approveWait, Ev.burnCall p, Ev.txWait])
            | Except.ok _ =>
                (DashResult.success,
                 [Ev.balanceOf, Ev.approve p, Ev.approveWait, Ev.burnCall p, Ev.txWait,
                  Ev.refresh])

/-- `withdraw` / `mint` / `auto-mint` branches of DashboardPage.js: a single
direct submission, then wait, then refresh. -/
def dashDirect (primary : Ev) (env : ChainEnv) : DashResult × List Ev :=
  match env.primaryRes with
  | Except.error e => (classifyDash e, [primary])
  | Except.ok _ =>
    match env.waitRes with
    | Except.error e => (classifyDash e, [primary, Ev.txWait])
    | Except.ok _ => (DashResult.success, [primary, Ev.txWait, Ev.refresh])

/-- `ActionModal.handleConfirm` of DashboardPage.js (lines 507-601).
Validation: missing provider or empty non-auto-mint amount; then
`isNaN(parseFloat)` or `<= 0` for non-auto-mint.  Inside the try block the
amount (`String(amount || '0')`) is parsed with `parseUnits(_, 6)`; a parse
throw is classified by the catch block.  Deposit/repay then run a
`balanceOf` pre-flight before approve-then-act. -/
def dashHandleConfirm (provider : Bool) (modalType : ModalType) (amount : String)
    (env : ChainEnv) : DashResult × List Ev :=
  if provider = false ∨ (amount = "" ∧ modalType ≠ ModalType.autoMint) then
    (DashResult.amountRequired, [])
  else if modalType ≠ ModalType.autoMint ∧ parseFloatInvalid (jsParseFloat amount) = true then
    (DashResult.invalidAmount, [])
  else
    match parseUnits (if amount = "" then "0" else amount) 6 with
    | Except.error e => (classifyDash e, [])
    | Except.ok p =>
      match modalType with
      | ModalType.deposit => dashDeposit p env
      | ModalType.repay => dashRepay p env
      | ModalType.withdraw => dashDirect (Ev.withdrawCall p) env
      | ModalType.mint => dashDirect (Ev.mintCall p) env
      | ModalType.autoMint => dashDirect Ev.autoMintCall env

/-! ### part_001 `ActionModal.handleConfirm` -/

/-- Deposit branch of part_001: approve → wait → `depositCollateral`. -/
def v1Deposit (p : ℤ) (env : ChainEnv) : V1Result × List Ev :=
  match env.approveRes with
  | Except.error e => (classifyV1 e, [Ev.approve p])
  | Except.ok _ =>
    match env.approveWaitRes with
    | Except.error e => (classifyV1 e, [Ev.approve p, Ev.approveWait])
    | Except.ok _ =>
      match env.primaryRes with
      | Except.error e => (classifyV1 e, [Ev.approve p, Ev.approveWait, Ev.depositCall p])
      | Except.ok _ =>
        match env.waitRes with
        | Except.error e =>
            (classifyV1 e, [Ev.approve p, Ev.approveWait, Ev.depositCall p, Ev.txWait])
        | Except.ok _ =>
            (V1Result.success,
             [Ev.approve p, Ev.approveWait, Ev.depositCall p, Ev.txWait, Ev.refresh])

/-- The remaining part_001 branches: a single direct submission (repay calls
`burnTokens` directly, with no approval). -/
def v1Direct (primary : Ev) (env : ChainEnv) : V1Result × List Ev :=
  match env.primaryRes with
  | Except.error e => (classifyV1 e, [primary])
  | Except.ok _ =>
    match env.waitRes with
    | Except.error e => (classifyV1 e, [primary, Ev.txWait])
    | Except.ok _ => (V1Result.success, [primary, Ev.txWait, Ev.refresh])

/-- `ActionModal.handleConfirm` of part_001 (lines 404-442).  Validation is
`!provider || (modalType!=='auto-mint' && (!amount || Number(amount)<=0))`;
note a NaN `Number(amount)` passes (comparison with NaN is false).  There is
no balance pre-flight; repay submits `burnTokens` without an approval. -/
def v1HandleConfirm (provider : Bool) (modalType : ModalType) (amount : String)
    (env : ChainEnv) : V1Result × List Ev :=
  if provider = false ∨
      (modalType ≠ ModalType.autoMint ∧
        (amount = "" ∨ jsLeZero (jsNumber amount) = true)) then
    (V1Result.invalidAmount, [])
  else
    match parseUnits (if amount = "" then "0" else amount) 6 with
    | Except.error e => (classifyV1 e, [])
    | Except.ok p =>
      match modalType with
      | ModalType.deposit => v1Deposit p env
      | ModalType.withdraw => v1Direct (Ev.withdrawCall p) env
      | ModalType.mint => v1Direct (Ev.mintCall p) env
      | ModalType.repay => v1Direct (Ev.burnCall p) env
      | ModalType.autoMint => v1Direct Ev.autoMintCall env

/-! ### part_002 `ActionModal.handleConfirm` -/

/-- Decimals chosen by part_002: `type === 'mint' || type === 'repay' ? 6 :
cfg.decimals`. -/
def v2Decimals (t : ModalType) (cfg : Nat) : Nat :=
  match t with
  | ModalType.mint => 6
  | ModalType.repay => 6
  | _ => cfg

/-- Deposit branch of part_002 after `collateralConfigs` and `parseUnits`:
approve → wait → `depositCollateral` → wait → refresh. -/
def v2Deposit (p : ℤ) (env : ChainEnv) : V2Result × List Ev :=
  match env.approveRes with
  | Except.error e => (V2Result.errMsg (classifyV2 e), [Ev.collateralConfigs, Ev.approve p])
  | Except.ok _ =>
    match env.approveWaitRes with
    | Except.error e =>
        (V2Result.errMsg (classifyV2 e), [Ev.collateralConfigs, Ev.approve p, Ev.approveWait])
    | Except.ok _ =>
      match env.primaryRes with
      | Except.error e =>
          (V2Result.errMsg (classifyV2 e),
           [Ev.collateralConfigs, Ev.approve p, Ev.approveWait, Ev.depositCall p])
      | Except.ok _ =>
        match env.waitRes with
        | Except.error e =>
            (V2Result.errMsg (classifyV2 e),
             [Ev.collateralConfigs, Ev.approve p, Ev.approveWait, Ev.depositCall p, Ev.txWait])
        | Except.ok _ =>
            (V2Result.success,
             [Ev.collateralConfigs, Ev.approve p, Ev.approveWait, Ev.depositCall p, Ev.txWait,
              Ev.refresh])

/-- Direct part_002 branches (withdraw / mint / repay), after
`collateralConfigs` and `parseUnits`. -/
def v2Direct (primary : Ev) (env : ChainEnv) : V2Result × List Ev :=
  match env.primaryRes with
  | Except.error e => (V2Result.errMsg (classifyV2 e), [Ev.collateralConfigs, primary])
  | Except.ok _ =>
    match env.waitRes with
    | Except.error e =>
        (V2Result.errMsg (classifyV2 e), [Ev.collateralConfigs, primary, Ev.txWait])
    | Except.ok _ =>
        (V2Result.success, [Ev.collateralConfigs, primary, Ev.txWait, Ev.refresh])

/-- The part_002 manual branch for a given modal type: read
`collateralConfigs`, pick the decimals, parse, and dispatch. -/
def v2Manual (t : ModalType) (amount : String) (env : ChainEnv) : V2Result × List Ev :=
  match env.cfgRes with
  | Except.error e => (V2Result.errMsg (classifyV2 e), [Ev.collateralConfigs])
  | Except.ok cfg =>
    match parseUnits amount (v2Decimals t cfg) with
    | Except.error e => (V2Result.errMsg (classifyV2 e), [Ev.collateralConfigs])
    | Except.ok p =>
      match t with
      | ModalType.deposit => v2Deposit p env
      | ModalType.withdraw => v2Direct (Ev.withdrawCall p) env
      | ModalType.mint => v2Direct (Ev.mintCall p) env
      | _ => v2Direct (Ev.burnCall p) env

/-- `ActionModal.handleConfirm` of part_002 (lines 211-251).  Auto-mint
first POSTs the backend eligibility endpoint; a non-ok response throws
`Error(err.detail || 'Auto-mint validation failed')`, whose `message` the
catch surfaces.  Manual actions read `collateralConfigs` for the decimals
(6 for mint/repay) and have no balance pre-flight; repay submits
`burnTokens` with no approval. -/
def v2HandleConfirm (provider : Bool) (modalType : ModalType) (amount : String)
    (env : ChainEnv) : V2Result × List Ev :=
  if provider = false ∨ (amount = "" ∧ modalType ≠ ModalType.autoMint) then
    (V2Result.amountRequired, [])
  else if modalType ≠ ModalType.autoMint ∧ parseFloatInvalid (jsParseFloat amount) = true then
    (V2Result.invalidAmount, [])
  else
    match modalType with
    | ModalType.autoMint =>
      match env.eligRes with
      | Except.error e => (V2Result.errMsg (classifyV2 e), [Ev.eligibilityPost])
      | Except.ok r =>
        if r.ok = false then
          (V2Result.errMsg (detailOr r.detail), [Ev.eligibilityPost])
        else
          match env.primaryRes with
          | Except.error e =>
              (V2Result.errMsg (classifyV2 e), [Ev.eligibilityPost, Ev.autoMintCall])
          | Except.ok _ =>
            match env.waitRes with
            | Except.error e =>
                (V2Result.errMsg (classifyV2 e),
                 [Ev.eligibilityPost, Ev.autoMintCall, Ev.txWait])
            | Except.ok _ =>
                (V2Result.success,
                 [Ev.eligibilityPost, Ev.autoMintCall, Ev.txWait, Ev.refresh])
    | t => v2Manual t amount env

/-! ### Trace monitors -/

/-- Every `depositCollateral` / `burnTokens` submission in the trace is
strictly preceded by an `approve` submission and an awaited approval. -/
def approvedBefore (sa sw : Bool) : List Ev → Bool
  | [] => true
  | e :: rest =>
    (!e.isDepositOrBurn || (sa && sw)) &&
    approvedBefore (sa || e.isApprove) (sw || e.isApproveWait) rest

/-- Every state-changing contract submission in the trace is strictly
preceded by the backend eligibility POST. -/
def eligBefore (seen : Bool) : List Ev → Bool
  | [] => true
  | e :: rest => (!e.isContractCall || seen) && eligBefore (seen || e.isElig) rest

def countRefresh (t : List Ev) : Nat := t.countP Ev.isRefresh

/-! ### Dashboard `fetchData` (DashboardPage.js lines 100-140) -/

/-- A REST response as observed by `fetchData`: `res.ok`, the parsed JSON
body (abstracted to a string), the `detail` field part_002 reads from a
failing body, and `res.url`. -/
structure FetchResp where
  ok : Bool
  body : String
  detail : Option String
  url : String
deriving DecidableEq, Repr

/-- The five read-only snapshots plus the error/loading/refresh state of the
DashboardPage component. -/
structure DashState where
  vaultOverview : Option String
  mintStatus : Option String
  oraclePrice : Option String
  transactions : Option String
  protocolHealth : Option String
  error : Option String
  isLoading : Bool
  lastRefreshed : Nat
deriving DecidableEq, Repr

def dashFetchErrMsg : String :=
  "Failed to fetch dashboard data. Your session might have expired."

/-- DashboardPage.js `fetchData`: guard on auth/wallet, five parallel
fetches, a joint `ok` check that throws before any snapshot is written, and
the snapshot/lastRefreshed updates only when every response is ok.
(`setIsLoading(true)`/`setError(null)` at entry and the `finally` are folded
into the net effect of each branch; the per-response `.json()` parses are
modelled as already-available bodies.) -/
def dashFetchData (authToken walletAddress : Bool) (now : Nat)
    (r1 r2 r3 r4 r5 : FetchResp) (st : DashState) : DashState :=
  if authToken = false ∨ walletAddress = false then st
  else if r1.ok && r2.ok && r3.ok && r4.ok && r5.ok then
    { vaultOverview := some r1.body, mintStatus := some r2.body,
      oraclePrice := some r3.body, transactions := some r4.body,
      protocolHealth := some r5.body, error := none, isLoading := false,
      lastRefreshed := now }
  else
    { st with error := some dashFetchErrMsg, isLoading := false }

/-- part_002 component state: `oraclePrice` exists but is never written by
its `fetchData` (which fetches protocol health and pending mint requests in
place of the oracle endpoint). -/
structure V2State where
  vaultOverview : Option String
  mintStatus : Option String
  oraclePrice : Option String
  transactions : Option String
  protocolHealth : Option String
  pendingRequests : Option String
  error : Option String
  isLoading : Bool
  lastRefreshed : Nat
deriving DecidableEq, Repr

/-- `errData.detail || Failed to fetch data from (res.url)` of part_002. -/
def v2FetchMsg (r : FetchResp) : String :=
  match r.detail with
  | some d => if d = "" then "Failed to fetch data from " ++ r.url else d
  | none => "Failed to fetch data from " ++ r.url

/-- The `for (const res of responses)` loop throws on the first non-ok
response. -/
def firstBad (rs : List FetchResp) : Option FetchResp :=
  rs.find? (fun r => !r.ok)

/-- part_002 `fetchData` (lines 70-106): responses are, in order, vault
status, mint-status, protocol health, transactions, pending mint requests.
The ok-loop throws before any snapshot is written. -/
def v2FetchData (authToken walletAddress : Bool) (now : Nat)
    (r1 r2 r3 r4 r5 : FetchResp) (st : V2State) : V2State :=
  if authToken = false ∨ walletAddress = false then st
  else
    match firstBad [r1, r2, r3, r4, r5] with
    | some r => { st with error := some (v2FetchMsg r), isLoading := false }
    | none =>
      { vaultOverview := some r1.body, mintStatus := some r2.body,
        oraclePrice := st.oraclePrice, transactions := some r4.body,
        protocolHealth := some r3.body, pendingRequests := some r5.body,
        error := none, isLoading := false, lastRefreshed := now }

/-! ### Transaction-history pagination (TransactionHistoryPage.js) -/

structure HistState where
  transactions : List String
  page : ℤ
  limit : ℤ
  total : ℤ
deriving DecidableEq, Repr

/-- JS `Math.ceil(a / b)` on integers with positive `b`. -/
def jsCeilDiv (a b : ℤ) : ℤ := -((-a).fdiv b)

/-- `handlePageChange` (lines 91-96): out-of-range targets return before the
fetch; in-range targets run `fetchTransactions`, whose state update from the
response is abstracted into the given total and transaction list.  The
boolean records whether a fetch was performed. -/
def handlePageChange (st : HistState) (newPage : ℤ) (respTotal : ℤ)
    (respTxs : List String) : HistState × Bool :=
  if newPage < 1 ∨ jsCeilDiv st.total st.limit < newPage then (st, false)
  else
    ({ transactions := respTxs, page := newPage, limit := st.limit, total := respTotal },
     true)

/-! ### Display formatters (DashboardPage.js lines 33-48) -/

/-- JS values that can reach the formatters. -/
inductive JSValue where
  | undef
  | null
  | nan
  | num (q : JsNum)
  | str (s : String)
deriving DecidableEq, Repr

/-- `typeof value === 'string' ? parseFloat(value) : value`. -/
def coerced (v : JSValue) : JSValue :=
  match v with
  | JSValue.str s =>
    match jsParseFloat s with
    | some q => JSValue.num q
    | none => JSValue.nan
  | x => x

/-- Global `isNaN` (applies ToNumber: undefined is NaN, null is 0). -/
def jsIsNaN : JSValue → Bool
  | JSValue.undef => true
  | JSValue.nan => true
  | JSValue.null => false
  | JSValue.num _ => false
  | JSValue.str s => (jsNumber s).isNone

def group3Aux : List Char → List Char
  | [] => []
  | [a] => [a]
  | [a, b] => [a, b]
  | [a, b, c] => [a, b, c]
  | a :: b :: c :: rest => a :: b :: c :: ',' :: group3Aux rest

/-- en-US thousands grouping of a digit string. -/
def groupDigits (l : List Char) : List Char := (group3Aux l.reverse).reverse

def pad2 (n : Nat) : List Char :=
  if n < 10 then '0' :: (toString n).data else (toString n).data

def pad3 (n : Nat) : List Char :=
  List.replicate (3 - (toString n).data.length) '0' ++ (toString n).data

/-- en-US USD currency rendering of a finite number (two fraction digits,
half-up rounding on the magnitude, thousands grouping, sign before the
dollar sign). -/
def intlUSD (q : JsNum) : String :=
  let cents := q.halfUpScaled 100
  let dollars := cents / 100
  let fr := cents % 100
  ⟨(if q.isNeg then ['-', '$'] else ['$']) ++ groupDigits (toString dollars).data ++
    '.' :: pad2 fr⟩

/-- `Intl.NumberFormat('en-US', currency USD, 2 fraction digits).format`
applies ToNumber to its argument; NaN renders as a NaN currency string. -/
def intlFormatUSD (v : JSValue) : String :=
  match v with
  | JSValue.null => intlUSD { num := 0, exp10 := 0 }
  | JSValue.num q => intlUSD q
  | JSValue.undef => "$NaN"
  | JSValue.nan => "$NaN"
  | JSValue.str s =>
    match jsNumber s with
    | some q => intlUSD q
    | none => "$NaN"

/-- `formatCurrency` of DashboardPage.js: string inputs go through
`parseFloat`; a NaN result short-circuits to the fallback; otherwise the
Intl formatter renders the value (coercing `null` to 0). -/
def formatCurrency (v : JSValue) : Option String :=
  let number := coerced v
  if jsIsNaN number = true then some "$0.00"
  else some (intlFormatUSD number)

/-- en-US default `Number.prototype.toLocaleString` rendering (up to three
fraction digits, thousands grouping). -/
def localeString (q : JsNum) : String :=
  let scaled := q.halfUpScaled 1000
  let whole := scaled / 1000
  let frDigits := trimTrailingZeros (pad3 (scaled % 1000))
  ⟨(if q.isNeg then ['-'] else []) ++ groupDigits (toString whole).data ++
    (if frDigits = [] then [] else '.' :: frDigits)⟩

/-- `number.toLocaleString()`: property access on `null` or `undefined`
throws a TypeError (`none`). -/
def toLocaleCall (v : JSValue) : Option String :=
  match v with
  | JSValue.null => none
  | JSValue.undef => none
  | JSValue.nan => some "NaN"
  | JSValue.num q => some (localeString q)
  | JSValue.str s => some s

/-- `formatNumber` of DashboardPage.js. -/
def formatNumber (v : JSValue) : Option String :=
  let number := coerced v
  if jsIsNaN number = true then some "0"
  else toLocaleCall number

/-! ### Concrete scenarios -/

/-- Every external call succeeds; the wallet balance is 0 base units, the
collateral declares 6 decimals, the backend accepts. -/
def envAllOk : ChainEnv :=
  { balanceRes := Except.ok 0, cfgRes := Except.ok 6, approveRes := Except.ok (),
    approveWaitRes := Except.ok (), primaryRes := Except.ok (), waitRes := Except.ok (),
    eligRes := Except.ok { ok := true, detail := none } }

/-- The spec scenario: simulated balance of 50 base units. -/
def envBal50 : ChainEnv := { envAllOk with balanceRes := Except.ok 50 }

/-- The spec scenario: the backend eligibility check rejects with reason
"cooldown active". -/
def envElig : ChainEnv :=
  { envAllOk with eligRes := Except.ok { ok := false, detail := some "cooldown active" } }

/-- A contract rejection whose payload carries the text "PriceStale" but not
the `0xe450d38c` selector, under a gas-branch code (`CALL_EXCEPTION`). -/
def eStaleText : JsError :=
  { code := some (JsCode.str "CALL_EXCEPTION"), reason := none, dataMessage := none,
    message := some "execution reverted: PriceStale", payload :=
    "code CALL_EXCEPTION message execution reverted: PriceStale" }

def envStaleText : ChainEnv := { envAllOk with primaryRes := Except.error eStaleText }

/-- A contract rejection carrying the PriceStale custom-error selector in
its payload, under a gas-branch code. -/
def eStaleSel : JsError :=
  { code := some (JsCode.str "UNPREDICTABLE_GAS_LIMIT"), reason := none,
    dataMessage := none, message := some "cannot estimate gas", payload :=
    "code UNPREDICTABLE_GAS_LIMIT error data 0xe450d38c" }

def envStaleSel : ChainEnv := { envAllOk with primaryRes := Except.error eStaleSel }

/-- A rejection with no gas-branch code, no reason, and the text
"PriceStale" in the payload (the third DashboardPage catch branch). -/
def eStalePlain : JsError :=
  { code := none, reason := none, dataMessage := none,
    message := some "PriceStale", payload := "message PriceStale" }

def envStalePlain : ChainEnv := { envAllOk with primaryRes := Except.error eStalePlain }

/-- Transaction-history state after the first mock fetch: page 1, limit 10,
47 records. -/
def hist0 : HistState := { transactions := ["t1"], page := 1, limit := 10, total := 47 }

def respOk (b u : String) : FetchResp := { ok := true, body := b, detail := none, url := u }

def respBad (u : String) : FetchResp :=
  { ok := false, body := "", detail := some "Could not validate credentials", url := u }

/-- A populated dashboard snapshot state. -/
def dashSt0 : DashState :=
  { vaultOverview := some "v0", mintStatus := some "m0", oraclePrice := some "o0",
    transactions := some "t0", protocolHealth := some "h0", error := none,
    isLoading := false, lastRefreshed := 1 }

def v2St0 : V2State :=
  { vaultOverview := some "v0", mintStatus := some "m0", oraclePrice := none,
    transactions := some "t0", protocolHealth := some "h0", pendingRequests := some "p0",
    error := none, isLoading := false, lastRefreshed := 1 }

/-! ### Specification-side value of a decimal string (for the conversion
claim) -/

/-- The decimal string `[-] w . f` over explicit digit lists. -/
def decString (neg : Bool) (w f : List Char) : String :=
  ⟨(if neg then ['-'] else []) ++ (w ++ '.' :: f)⟩

/-- Exact rational value of the decimal string `[-] w . f`, defined
independently of the parser. -/
def decVal (neg : Bool) (w f : List Char) : ℚ :=
  (if neg then -1 else 1) * ((digitsVal w : ℚ) + (digitsVal f : ℚ) / 10 ^ f.length)

/-- The fraction digits as `parseFixed` processes them: `"0"` when absent,
trailing zeros trimmed, `"0"` restored when trimmed away, right-padded to
`d` digits. -/
def padFraction (f : List Char) (d : ℕ) : List Char :=
  let ftrim := trimTrailingZeros (if f = [] then ['0'] else f)
  let ffix := if ftrim = [] then ['0'] else ftrim
  ffix ++ List.replicate (d - ffix.length) '0'

/-- Length of the trimmed fraction, against which `parseFixed` compares the
requested precision. -/
def fracLen (f : List Char) : ℕ :=
  (trimTrailingZeros (if f = [] then ['0'] else f)).length

/-! ### Claim C4: arithmetic of the conversion -/

theorem digit_ne_dot {c : Char} (h : c.isDigit = true) : c ≠ '.' := by
  intro he
  subst he
  simp [Char.isDigit] at h

theorem digit_beq_dot {c : Char} (h : c.isDigit = true) : (c == '.') = false := by
  simpa using digit_ne_dot h

theorem digit_ne_dash {c : Char} (h : c.isDigit = true) : c ≠ '-' := by
  intro he
  subst he
  simp [Char.isDigit] at h

theorem digit_isDigitOrDot {c : Char} (h : c.isDigit = true) : isDigitOrDot c = true := by
  simp [isDigitOrDot, h]

theorem splitOnDot_no_dot (l : List Char) (h : l.all Char.isDigit = true) :
    splitOnDot l = [l] := by
  induction l with
  | nil => rfl
  | cons c r ih =>
    simp only [List.all_cons, Bool.and_eq_true] at h
    rw [splitOnDot, digit_beq_dot h.1, ih h.2]
    simp

theorem splitOnDot_append (w r : List Char) (h : w.all Char.isDigit = true) :
    splitOnDot (w ++ '.' :: r) = w :: splitOnDot r := by
  induction w with
  | nil =>
    show splitOnDot ('.' :: r) = [] :: splitOnDot r
    rw [splitOnDot]
    simp
  | cons c w' ih =>
    simp only [List.all_cons, Bool.and_eq_true] at h
    simp only [List.cons_append]
    rw [splitOnDot, digit_beq_dot h.1, ih h.2]
    simp

theorem digitsVal_from (l : List Char) (s : ℕ) :
    l.foldl (fun a c => a * 10 + digitNat c) s = s * 10 ^ l.length + digitsVal l := by
  induction l generalizing s with
  | nil => simp [digitsVal]
  | cons c r ih =>
    show r.foldl _ (s * 10 + digitNat c) = _
    rw [ih]
    have h2 : digitsVal (c :: r) = digitNat c * 10 ^ r.length + digitsVal r := by
      show r.foldl _ (0 * 10 + digitNat c) = _
      rw [ih]
      ring
    rw [h2, List.length_cons]
    ring

theorem digitsVal_append (a b : List Char) :
    digitsVal (a ++ b) = digitsVal a * 10 ^ b.length + digitsVal b := by
  unfold digitsVal
  rw [List.foldl_append]
  exact digitsVal_from b _

theorem digitsVal_replicate_zero (k : ℕ) : digitsVal (List.replicate k '0') = 0 := by
  induction k with
  | zero => rfl
  | succ m ih =>
    rw [List.replicate_succ]
    show (List.replicate m '0').foldl _ (0 * 10 + digitNat '0') = 0
    have h0 : (0 : ℕ) * 10 + digitNat '0' = 0 := by decide
    rw [h0]
    exact ih

theorem trim_decomp (l : List Char) :
    ∃ k, l = trimTrailingZeros l ++ List.replicate k '0' ∧
      l.length = (trimTrailingZeros l).length + k := by
  refine ⟨(l.reverse.takeWhile (fun c => c == '0')).length, ?_, ?_⟩
  · have hz : l.reverse.takeWhile (fun c => c == '0') =
        List.replicate (l.reverse.takeWhile (fun c => c == '0')).length '0' := by
      apply List.eq_replicate_of_mem
      intro b hb
      have := List.mem_takeWhile_imp hb
      simpa using this
    conv_lhs => rw [← l.reverse_reverse,
      ← List.takeWhile_append_dropWhile (p := fun c => c == '0') (l := l.reverse)]
    rw [List.reverse_append, trimTrailingZeros]
    congr 1
    rw [hz, List.reverse_replicate, List.length_replicate]
  · have := congrArg List.length
      (List.takeWhile_append_dropWhile (p := fun c => c == '0') (l := l.reverse))
    simp only [List.length_append, List.length_reverse] at this
    simp only [trimTrailingZeros, List.length_reverse]
    omega

theorem digitsVal_trim (l : List Char) :
    digitsVal l =
      digitsVal (trimTrailingZeros l) * 10 ^ (l.length - (trimTrailingZeros l).length) ∧
    (trimTrailingZeros l).length ≤ l.length := by
  obtain ⟨k, hl, hlen⟩ := trim_decomp l
  constructor
  · conv_lhs => rw [hl]
    rw [digitsVal_append, digitsVal_replicate_zero, List.length_replicate]
    have hk : l.length - (trimTrailingZeros l).length = k := by omega
    rw [hk]
    ring
  · omega

theorem digitsVal_if_empty (w : List Char) :
    digitsVal (if w = [] then ['0'] else w) = digitsVal w := by
  split
  · subst_vars
    decide
  · rfl

theorem all_digitOrDot (w f : List Char) (hw : w.all Char.isDigit = true)
    (hf : f.all Char.isDigit = true) :
    (w ++ '.' :: f).all isDigitOrDot = true := by
  rw [List.all_append, List.all_cons]
  have h1 : w.all isDigitOrDot = true := by
    rw [List.all_eq_true] at hw ⊢
    exact fun c hc => digit_isDigitOrDot (hw c hc)
  have h2 : f.all isDigitOrDot = true := by
    rw [List.all_eq_true] at hf ⊢
    exact fun c hc => digit_isDigitOrDot (hf c hc)
  rw [h1, h2]
  rfl

/-- Reduction of ethers `parseUnits` on a canonical decimal string. -/
theorem parseUnits_decString (neg : Bool) (w f : List Char) (d : ℕ)
    (hw : w.all Char.isDigit = true) (hf : f.all Char.isDigit = true) :
    parseUnits (decString neg w f) d =
      (if w = [] ∧ f = [] then Except.error missingValueErr
       else if d < fracLen f then Except.error fracExceedsErr
       else
        Except.ok
          (if neg then
            -((digitsVal w : ℤ) * 10 ^ d + (digitsVal (padFraction f d) : ℤ))
           else (digitsVal w : ℤ) * 10 ^ d + (digitsVal (padFraction f d) : ℤ))) := by
  have hne : w ++ '.' :: f ≠ [] := by simp
  have hall : (w ++ '.' :: f).all isDigitOrDot = true := all_digitOrDot w f hw hf
  have hdotcase : (w ++ '.' :: f = ['.']) ↔ (w = [] ∧ f = []) := by
    constructor
    · intro he
      cases w with
      | nil => simpa using he
      | cons c w' =>
        simp only [List.cons_append, List.cons.injEq] at he
        exact absurd he.2 (by simp)
    · rintro ⟨h1, h2⟩
      subst h1
      subst h2
      rfl
  have hsplit : splitOnDot (w ++ '.' :: f) = [w, f] := by
    rw [splitOnDot_append w f hw, splitOnDot_no_dot f hf]
  cases neg with
  | false =>
    have hdata0 : (decString false w f).data = w ++ '.' :: f := rfl
    have hhead : ¬ ((w ++ '.' :: f).head? = some '-') := by
      cases w with
      | nil => simp
      | cons c w' =>
        simp only [List.all_cons, Bool.and_eq_true] at hw
        simp [digit_ne_dash hw.1]
    simp only [parseUnits, hdata0, decide_eq_false hhead, Bool.false_eq_true, if_false]
    rw [if_neg (by simp [hne, hall])]
    by_cases hwf : w = [] ∧ f = []
    · rw [if_pos (hdotcase.2 hwf), if_pos hwf]
    · rw [if_neg (fun he => hwf (hdotcase.1 he)), if_neg hwf, hsplit]
      simp only [digitsVal_if_empty, padFraction, fracLen]
  | true =>
    have hdata1 : (decString true w f).data = '-' :: (w ++ '.' :: f) := rfl
    have hhead : (('-' :: (w ++ '.' :: f)).head? = some '-') := rfl
    simp only [parseUnits, hdata1, decide_eq_true hhead, if_true, List.tail_cons]
    rw [if_neg (by simp [hne, hall])]
    by_cases hwf : w = [] ∧ f = []
    · rw [if_pos (hdotcase.2 hwf), if_pos hwf]
    · rw [if_neg (fun he => hwf (hdotcase.1 he)), if_neg hwf, hsplit]
      simp only [digitsVal_if_empty, padFraction, fracLen]

theorem padFraction_val (f : List Char) (d : ℕ) (hle : fracLen f ≤ d) :
    (digitsVal (padFraction f d) : ℚ) * 10 ^ f.length = (digitsVal f : ℚ) * 10 ^ d := by
  by_cases hfe : f = []
  · subst hfe
    have h1 : digitsVal (padFraction [] d) = 0 := by
      have h2 : padFraction [] d = '0' :: List.replicate (d - 1) '0' := rfl
      rw [h2, ← List.replicate_succ, digitsVal_replicate_zero]
    rw [h1]
    simp [digitsVal]
  · have hf0 : (if f = [] then ['0'] else f) = f := if_neg hfe
    obtain ⟨hdv, hlenle⟩ := digitsVal_trim f
    by_cases hte : trimTrailingZeros f = []
    · have hdf : digitsVal f = 0 := by rw [hdv, hte]; simp [digitsVal]
      have h1 : digitsVal (padFraction f d) = 0 := by
        have h2 : padFraction f d = '0' :: List.replicate (d - 1) '0' := by
          simp [padFraction, hf0, hte]
        rw [h2, ← List.replicate_succ, digitsVal_replicate_zero]
      rw [h1, hdf]
      simp
    · have ha : fracLen f = (trimTrailingZeros f).length := by
        simp [fracLen, hf0]
      rw [ha] at hle
      have hpad : digitsVal (padFraction f d) =
          digitsVal (trimTrailingZeros f) * 10 ^ (d - (trimTrailingZeros f).length) := by
        simp only [padFraction, hf0, hte, if_false, if_neg hte]
        rw [digitsVal_append, digitsVal_replicate_zero, List.length_replicate]
        simp
      rw [hpad, hdv]
      push_cast
      rw [mul_assoc, mul_assoc]
      congr 1
      rw [← pow_add, ← pow_add]
      congr 1
      omega

/-- Value of a successful canonical-string conversion (helper for the
conversion claim): the produced integer is exactly the string's value
scaled by `10 ^ d`. -/
theorem parseUnits_ok_val (neg : Bool) (w f : List Char) (d : ℕ) (n : ℤ)
    (hw : w.all Char.isDigit = true) (hf : f.all Char.isDigit = true)
    (hok : parseUnits (decString neg w f) d = Except.ok n) :
    (n : ℚ) = decVal neg w f * 10 ^ d := by
  rw [parseUnits_decString neg w f d hw hf] at hok
  by_cases hwf : w = [] ∧ f = []
  · rw [if_pos hwf] at hok
    exact absurd hok (by simp)
  · rw [if_neg hwf] at hok
    by_cases hlt : d < fracLen f
    · rw [if_pos hlt] at hok
      exact absurd hok (by simp)
    · rw [if_neg hlt] at hok
      have hle : fracLen f ≤ d := Nat.le_of_not_lt hlt
      have hkey := padFraction_val f d hle
      have h10 : ((10 : ℚ) ^ f.length) ≠ 0 := by positivity
      simp only [Except.ok.injEq] at hok
      subst hok
      cases neg with
      | false =>
        simp only [decVal, if_false, Bool.false_eq_true, one_mul]
        push_cast
        field_simp
        linear_combination hkey
      | true =>
        simp only [decVal, if_true]
        push_cast
        field_simp
        linear_combination -hkey

/-- Claim C4 (counterexample): the conversion does not truncate excess
fractional digits — `parseUnits("0.0000005", 6)` throws "fractional
component exceeds decimals" and the invocation aborts with that reason
(truncation would have submitted 0). -/
theorem parseUnits_no_truncation_cx :
    parseUnits "0.0000005" 6 = Except.error fracExceedsErr ∧
    dashHandleConfirm true ModalType.deposit "0.0000005" envAllOk =
      (DashResult.contractReason "fractional component exceeds decimals", []) := by
  refine ⟨rfl, by decide⟩

/-- Claim C4 (amended): the conversion of a decimal amount string is exact —
the produced integer equals the string's value scaled by `10 ^ decimals`
(so it is never rounded up above the requested amount) — and a fraction
whose trimmed digits exceed the precision is rejected with an error rather
than truncated; part_002 picks precision 6 for mint/repay and the
collateral's declared decimals otherwise. -/
theorem parseUnits_exact_or_rejecting :
    (∀ neg w f d n, w.all Char.isDigit = true → f.all Char.isDigit = true →
      parseUnits (decString neg w f) d = Except.ok n →
      (n : ℚ) = decVal neg w f * 10 ^ d) ∧
    (∀ w f d n, w.all Char.isDigit = true → f.all Char.isDigit = true →
      parseUnits (decString false w f) d = Except.ok n →
      (n : ℚ) ≤ decVal false w f * 10 ^ d) ∧
    (∀ neg w f d, w.all Char.isDigit = true → f.all Char.isDigit = true →
      d < (trimTrailingZeros f).length →
      parseUnits (decString neg w f) d = Except.error fracExceedsErr) ∧
    (∀ c, v2Decimals ModalType.mint c = 6 ∧ v2Decimals ModalType.repay c = 6 ∧
      v2Decimals ModalType.deposit c = c ∧ v2Decimals ModalType.withdraw c = c) := by
  refine ⟨?_, ?_, ?_, ?_⟩
  · exact fun neg w f d n hw hf hok => parseUnits_ok_val neg w f d n hw hf hok
  · exact fun w f d n hw hf hok => le_of_eq (parseUnits_ok_val false w f d n hw hf hok)
  · intro neg w f d hw hf hlt
    have hfne : f ≠ [] := by
      intro he
      subst he
      simp [trimTrailingZeros] at hlt
    rw [parseUnits_decString neg w f d hw hf]
    rw [if_neg (by simp [hfne])]
    rw [if_pos (by simpa [fracLen, hfne] using hlt)]
  · intro c
    exact ⟨rfl, rfl, rfl, rfl⟩

/-- Claim C4 (witness): converting "1.5" at precision 1 produces exactly 15,
the value 1.5 scaled by 10. -/
theorem parseUnits_exact_or_rejecting_witness :
    ((15 : ℤ) : ℚ) = decVal false ['1'] ['5'] * 10 ^ 1 :=
  parseUnits_exact_or_rejecting.1 false ['1'] ['5'] 1 15 (by decide) (by decide) rfl

/-! ### Shared classifier lemmas -/

theorem classifyDash_ne_success (e : JsError) : classifyDash e ≠ DashResult.success := by
  unfold classifyDash
  repeat' split
  all_goals simp

theorem classifyV1_ne_success (e : JsError) : classifyV1 e ≠ V1Result.success := by
  unfold classifyV1
  repeat' split
  all_goals simp

/-! ### Claim C1 -/

/-- Claim C1 (counterexample): in the part_001 workflow a repay invocation
that reaches submission issues `burnTokens` with no allowance approval at
all, and still confirms. -/
theorem repay_without_approval_cx :
    (v1HandleConfirm true ModalType.repay "5" envAllOk).2 =
      [Ev.burnCall 5000000, Ev.txWait, Ev.refresh] ∧
    (v1HandleConfirm true ModalType.repay "5" envAllOk).2.any Ev.isApprove = false ∧
    (v1HandleConfirm true ModalType.repay "5" envAllOk).1 = V1Result.success := by
  refine ⟨by decide, by decide, by decide⟩

/-- Claim C1 (amended): in the DashboardPage workflow every
deposit/repay primary submission is preceded by a submitted and awaited
approval; in the part_001 and part_002 workflows this holds for deposit,
while repay never issues an approval call. -/
theorem approval_before_primary :
    (∀ pv amount env,
      approvedBefore false false (dashHandleConfirm pv ModalType.deposit amount env).2 = true) ∧
    (∀ pv amount env,
      approvedBefore false false (dashHandleConfirm pv ModalType.repay amount env).2 = true) ∧
    (∀ pv amount env,
      approvedBefore false false (v1HandleConfirm pv ModalType.deposit amount env).2 = true) ∧
    (∀ pv amount env,
      approvedBefore false false (v2HandleConfirm pv ModalType.deposit amount env).2 = true) ∧
    (∀ pv amount env,
      (v1HandleConfirm pv ModalType.repay amount env).2.any Ev.isApprove = false) ∧
    (∀ pv amount env,
      (v2HandleConfirm pv ModalType.repay amount env).2.any Ev.isApprove = false) := by
  refine ⟨?_, ?_, ?_, ?_, ?_, ?_⟩ <;> intro pv amount env
  · unfold dashHandleConfirm dashDeposit
    repeat' split
    all_goals first | rfl | simp_all
  · unfold dashHandleConfirm dashRepay
    repeat' split
    all_goals first | rfl | simp_all
  · unfold v1HandleConfirm v1Deposit
    repeat' split
    all_goals first | rfl | simp_all
  · unfold v2HandleConfirm v2Manual v2Deposit
    repeat' split
    all_goals first | rfl | simp_all
  · unfold v1HandleConfirm v1Direct
    repeat' split
    all_goals first | rfl | simp_all
  · unfold v2HandleConfirm v2Manual v2Direct
    repeat' split
    all_goals first | rfl | simp_all

/-! ### Claim C2 -/

/-- Claim C2 (counterexample): the part_002 workflow performs no balance
pre-flight: with a simulated balance of 50 base units it still submits the
approval for a deposit of 100 tokens (100000000 base units). -/
theorem no_preflight_in_v2_cx :
    envBal50.balanceRes = Except.ok 50 ∧
    (v2HandleConfirm true ModalType.deposit "100" envBal50).2.any Ev.isApprove = true ∧
    (v2HandleConfirm true ModalType.deposit "100" envBal50).2.any Ev.isBalanceOf = false := by
  refine ⟨rfl, by decide, by decide⟩

/-- Claim C2 (amended): in the DashboardPage workflow a deposit or repay
whose on-chain balance is below the parsed amount stops after the single
`balanceOf` read with the insufficient-balance failure; the part_001 and
part_002 workflows never read the balance at all. -/
theorem preflight_balance_check :
    (∀ amount env p bal, amount ≠ "" →
      parseFloatInvalid (jsParseFloat amount) = false →
      parseUnits amount 6 = Except.ok p →
      env.balanceRes = Except.ok bal → bal < p →
      dashHandleConfirm true ModalType.deposit amount env =
        (DashResult.insufficientBalance bal, [Ev.balanceOf])) ∧
    (∀ amount env p bal, amount ≠ "" →
      parseFloatInvalid (jsParseFloat amount) = false →
      parseUnits amount 6 = Except.ok p →
      env.balanceRes = Except.ok bal → bal < p →
      dashHandleConfirm true ModalType.repay amount env =
        (DashResult.insufficientBalance bal, [Ev.balanceOf])) ∧
    (∀ pv mt amount env,
      (v1HandleConfirm pv mt amount env).2.any Ev.isBalanceOf = false) ∧
    (∀ pv mt amount env,
      (v2HandleConfirm pv mt amount env).2.any Ev.isBalanceOf = false) := by
  refine ⟨?_, ?_, ?_, ?_⟩
  · intro amount env p bal h1 h2 hp hb hlt
    simp [dashHandleConfirm, dashDeposit, h1, h2, hp, hb, hlt]
  · intro amount env p bal h1 h2 hp hb hlt
    simp [dashHandleConfirm, dashRepay, h1, h2, hp, hb, hlt]
  · intro pv mt amount env
    unfold v1HandleConfirm v1Deposit v1Direct
    repeat' split
    all_goals first | rfl | simp_all
  · intro pv mt amount env
    unfold v2HandleConfirm v2Manual v2Deposit v2Direct
    repeat' split
    all_goals first | rfl | simp_all

/-- Claim C2 (witness): the spec scenario deposit "100" against balance 50. -/
theorem preflight_balance_check_witness :
    dashHandleConfirm true ModalType.deposit "100" envBal50 =
      (DashResult.insufficientBalance 50, [Ev.balanceOf]) :=
  preflight_balance_check.1 "100" envBal50 100000000 50 (by decide) (by decide)
    rfl rfl (by decide)

/-! ### Claim C3 -/

/-- Claim C3 (counterexample): the DashboardPage workflow submits `autoMint`
directly with no backend eligibility call. -/
theorem automint_no_eligibility_dash_cx :
    (dashHandleConfirm true ModalType.autoMint "" envAllOk).2 =
      [Ev.autoMintCall, Ev.txWait, Ev.refresh] ∧
    (dashHandleConfirm true ModalType.autoMint "" envAllOk).2.any Ev.isElig = false := by
  refine ⟨by decide, by decide⟩

/-- Claim C3 (amended): in the part_002 workflow the eligibility POST
precedes every contract call, and a non-ok backend response aborts with the
backend's `detail` (or the fixed fallback) and no contract call; the
DashboardPage and part_001 workflows never call the eligibility endpoint. -/
theorem automint_eligibility :
    (∀ amount env,
      eligBefore false (v2HandleConfirm true ModalType.autoMint amount env).2 = true) ∧
    (∀ amount env r, env.eligRes = Except.ok r → r.ok = false →
      v2HandleConfirm true ModalType.autoMint amount env =
        (V2Result.errMsg (detailOr r.detail), [Ev.eligibilityPost])) ∧
    (∀ pv mt amount env,
      (dashHandleConfirm pv mt amount env).2.any Ev.isElig = false) ∧
    (∀ pv mt amount env,
      (v1HandleConfirm pv mt amount env).2.any Ev.isElig = false) := by
  refine ⟨?_, ?_, ?_, ?_⟩
  · intro amount env
    unfold v2HandleConfirm
    repeat' split
    all_goals first | rfl | simp_all
  · intro amount env r h1 h2
    simp [v2HandleConfirm, h1, h2]
  · intro pv mt amount env
    unfold dashHandleConfirm dashDeposit dashRepay dashDirect
    repeat' split
    all_goals first | rfl | simp_all
  · intro pv mt amount env
    unfold v1HandleConfirm v1Deposit v1Direct
    repeat' split
    all_goals first | rfl | simp_all

/-- Claim C3 (witness): the spec scenario with backend reason
"cooldown active". -/
theorem automint_eligibility_witness :
    v2HandleConfirm true ModalType.autoMint "" envElig =
      (V2Result.errMsg "cooldown active", [Ev.eligibilityPost]) := by
  have h := automint_eligibility.2.1 ""
    envElig { ok := false, detail := some "cooldown active" } rfl rfl
  simpa [detailOr] using h

/-! ### Claim C5 -/

/-- Claim C5 (counterexample): in the part_001 workflow the non-numeric
amount "abc" passes validation (`Number("abc") <= 0` is false for NaN) and
fails later with the conversion error surfaced as a verbatim reason, not the
invalid-amount validation failure — though still with no network call. -/
theorem v1_nonnumeric_not_invalid_cx :
    v1HandleConfirm true ModalType.deposit "abc" envAllOk =
      (V1Result.contractReason "invalid decimal value", []) ∧
    (V1Result.contractReason "invalid decimal value" ≠ V1Result.invalidAmount) := by
  refine ⟨by decide, by decide⟩

/-- Claim C5 (amended): in the DashboardPage and part_002 workflows a
missing, NaN-parsing, or nonpositive amount yields the validation failure
with an empty trace; part_001 rejects empty and nonpositive amounts the
same way, and even in its NaN gap (amounts whose `Number` is NaN) a failed
conversion still issues no call. -/
theorem invalid_amount_no_network :
    (∀ mt amount env, mt ≠ ModalType.autoMint →
      (amount = "" ∨ parseFloatInvalid (jsParseFloat amount) = true) →
      ((dashHandleConfirm true mt amount env).1 = DashResult.amountRequired ∨
       (dashHandleConfirm true mt amount env).1 = DashResult.invalidAmount) ∧
      (dashHandleConfirm true mt amount env).2 = []) ∧
    (∀ mt amount env, mt ≠ ModalType.autoMint →
      (amount = "" ∨ parseFloatInvalid (jsParseFloat amount) = true) →
      ((v2HandleConfirm true mt amount env).1 = V2Result.amountRequired ∨
       (v2HandleConfirm true mt amount env).1 = V2Result.invalidAmount) ∧
      (v2HandleConfirm true mt amount env).2 = []) ∧
    (∀ mt amount env, mt ≠ ModalType.autoMint →
      (amount = "" ∨ jsLeZero (jsNumber amount) = true) →
      v1HandleConfirm true mt amount env = (V1Result.invalidAmount, [])) ∧
    (∀ mt amount env e, amount ≠ "" →
      parseUnits amount 6 = Except.error e →
      (v1HandleConfirm true mt amount env).2 = []) := by
  refine ⟨?_, ?_, ?_, ?_⟩
  · intro mt amount env hne hOr
    by_cases he : amount = ""
    · exact ⟨Or.inl (by simp [dashHandleConfirm, he, hne]),
        by simp [dashHandleConfirm, he, hne]⟩
    · rcases hOr with h | h
      · exact absurd h he
      · exact ⟨Or.inr (by simp [dashHandleConfirm, he, hne, h]),
          by simp [dashHandleConfirm, he, hne, h]⟩
  · intro mt amount env hne hOr
    by_cases he : amount = ""
    · exact ⟨Or.inl (by simp [v2HandleConfirm, he, hne]),
        by simp [v2HandleConfirm, he, hne]⟩
    · rcases hOr with h | h
      · exact absurd h he
      · exact ⟨Or.inr (by simp [v2HandleConfirm, he, hne, h]),
          by simp [v2HandleConfirm, he, hne, h]⟩
  · intro mt amount env hne hOr
    rcases hOr with h | h
    · simp [v1HandleConfirm, hne, h]
    · simp [v1HandleConfirm, hne, h]
  · intro mt amount env e hA hp
    unfold v1HandleConfirm
    split
    · rfl
    · simp [hA, hp]

/-- Claim C5 (witness): the spec scenario amount "0" on a deposit, and the
part_001 validation at the same input. -/
theorem invalid_amount_no_network_witness :
    ((dashHandleConfirm true ModalType.deposit "0" envAllOk).1 =
        DashResult.amountRequired ∨
     (dashHandleConfirm true ModalType.deposit "0" envAllOk).1 =
        DashResult.invalidAmount) ∧
    (dashHandleConfirm true ModalType.deposit "0" envAllOk).2 = [] :=
  invalid_amount_no_network.1 ModalType.deposit "0" envAllOk (by decide)
    (Or.inr (by decide))

/-! ### Claim C6 -/

/-- Claim C6 (confirmed): across all three workflow variants, a confirmed
invocation triggers the refresh callback exactly once and every other
outcome triggers it zero times. -/
theorem refresh_iff_confirmed :
    (∀ pv mt amount env,
      countRefresh (dashHandleConfirm pv mt amount env).2 =
        if (dashHandleConfirm pv mt amount env).1 = DashResult.success then 1 else 0) ∧
    (∀ pv mt amount env,
      countRefresh (v1HandleConfirm pv mt amount env).2 =
        if (v1HandleConfirm pv mt amount env).1 = V1Result.success then 1 else 0) ∧
    (∀ pv mt amount env,
      countRefresh (v2HandleConfirm pv mt amount env).2 =
        if (v2HandleConfirm pv mt amount env).1 = V2Result.success then 1 else 0) := by
  refine ⟨?_, ?_, ?_⟩ <;> intro pv mt amount env
  · unfold dashHandleConfirm dashDeposit dashRepay dashDirect
    repeat' split
    all_goals simp_all [countRefresh, classifyDash_ne_success, Ev.isRefresh]
  · unfold v1HandleConfirm v1Deposit v1Direct
    repeat' split
    all_goals simp_all [countRefresh, classifyV1_ne_success, Ev.isRefresh]
  · unfold v2HandleConfirm v2Manual v2Deposit v2Direct
    repeat' split
    all_goals simp_all [countRefresh, Ev.isRefresh]

/-! ### Claim C7 -/

/-- Claim C7 (counterexample): a mint rejection whose payload contains the
text "PriceStale" but arrives under a gas-branch error code without the
`0xe450d38c` selector is reported as the gas-estimation failure, not the
dedicated stale-oracle classification. -/
theorem stale_text_misclassified_cx :
    strHas eStaleText.payload "PriceStale" = true ∧
    (dashHandleConfirm true ModalType.mint "5" envStaleText).1 = DashResult.gasEstimate ∧
    (DashResult.gasEstimate ≠ DashResult.staleBySelector) ∧
    (DashResult.gasEstimate ≠ DashResult.staleByText) := by
  refine ⟨by decide, by decide, by decide, by decide⟩

/-- Claim C7 (amended): the DashboardPage workflow reports the dedicated
stale-oracle message exactly when a gas-branch code carries the selector in
the payload, or a non-gas code has no truthy reason and the payload carries
the text "PriceStale"; its two stale messages differ from the generic
unknown message; the part_001 workflow has no stale classification at all
(reasonless non-gas errors are always generic). -/
theorem stale_price_classification :
    (∀ amount env p e, amount ≠ "" →
      parseFloatInvalid (jsParseFloat amount) = false →
      parseUnits amount 6 = Except.ok p →
      env.primaryRes = Except.error e →
      gasCode e.code = true →
      strHas e.payload "0xe450d38c" = true →
      (dashHandleConfirm true ModalType.mint amount env).1 = DashResult.staleBySelector) ∧
    (∀ amount env p e, amount ≠ "" →
      parseFloatInvalid (jsParseFloat amount) = false →
      parseUnits amount 6 = Except.ok p →
      env.primaryRes = Except.error e →
      gasCode e.code = false →
      truthy e.reason = false →
      strHas e.payload "PriceStale" = true →
      (dashHandleConfirm true ModalType.mint amount env).1 = DashResult.staleByText) ∧
    (dashMessage DashResult.staleBySelector ≠ dashMessage DashResult.unknown ∧
     dashMessage DashResult.staleByText ≠ dashMessage DashResult.unknown) ∧
    (∀ e, truthy e.reason = false →
      ¬ (e.code = some (JsCode.str "UNPREDICTABLE_GAS_LIMIT")) →
      classifyV1 e = V1Result.unknown) := by
  refine ⟨?_, ?_, ⟨by decide, by decide⟩, ?_⟩
  · intro amount env p e h1 h2 hp hprim hgas hsel
    simp [dashHandleConfirm, dashDirect, classifyDash, h1, h2, hp, hprim, hgas, hsel]
  · intro amount env p e h1 h2 hp hprim hgas hreason htext
    simp [dashHandleConfirm, dashDirect, classifyDash, h1, h2, hp, hprim, hgas, hreason, htext]
  · intro e h1 h2
    simp [classifyV1, h1, h2]

/-- Claim C7 (witness): a gas-code rejection carrying the selector is
classified stale. -/
theorem stale_price_classification_witness :
    (dashHandleConfirm true ModalType.mint "5" envStaleSel).1 =
      DashResult.staleBySelector :=
  stale_price_classification.1 "5" envStaleSel 5000000 eStaleSel (by decide) (by decide)
    rfl rfl (by decide) (by decide)

/-! ### Claim C8 -/

/-- Claim C8 (confirmed): when any of the batched responses is not ok, both
fetchData variants record an error and leave every stored snapshot
untouched (the joint ok-check throws before any snapshot write). -/
theorem fetch_all_or_nothing :
    (∀ now r1 r2 r3 r4 r5 st,
      (r1.ok && r2.ok && r3.ok && r4.ok && r5.ok) = false →
      dashFetchData true true now r1 r2 r3 r4 r5 st =
        { st with error := some dashFetchErrMsg, isLoading := false }) ∧
    (∀ now r1 r2 r3 r4 r5 st,
      (r1.ok && r2.ok && r3.ok && r4.ok && r5.ok) = false →
      (v2FetchData true true now r1 r2 r3 r4 r5 st).vaultOverview = st.vaultOverview ∧
      (v2FetchData true true now r1 r2 r3 r4 r5 st).mintStatus = st.mintStatus ∧
      (v2FetchData true true now r1 r2 r3 r4 r5 st).oraclePrice = st.oraclePrice ∧
      (v2FetchData true true now r1 r2 r3 r4 r5 st).transactions = st.transactions ∧
      (v2FetchData true true now r1 r2 r3 r4 r5 st).protocolHealth = st.protocolHealth ∧
      (v2FetchData true true now r1 r2 r3 r4 r5 st).pendingRequests = st.pendingRequests ∧
      (v2FetchData true true now r1 r2 r3 r4 r5 st).lastRefreshed = st.lastRefreshed ∧
      ((v2FetchData true true now r1 r2 r3 r4 r5 st).error).isSome = true) := by
  constructor
  · intro now r1 r2 r3 r4 r5 st h
    simp [dashFetchData, h]
  · intro now r1 r2 r3 r4 r5 st h
    cases h1 : r1.ok <;> cases h2 : r2.ok <;> cases h3 : r3.ok <;>
      cases h4 : r4.ok <;> cases h5 : r5.ok <;>
      simp_all [v2FetchData, firstBad, List.find?]

/-- Claim C8 (witness): one failing response among five leaves the populated
dashboard snapshots unchanged and records the error. -/
theorem fetch_all_or_nothing_witness :
    dashFetchData true true 2 (respOk "v1" "u1") (respOk "m1" "u2") (respBad "u3")
        (respOk "t1" "u4") (respOk "h1" "u5") dashSt0 =
      { dashSt0 with error := some dashFetchErrMsg, isLoading := false } :=
  fetch_all_or_nothing.1 2 (respOk "v1" "u1") (respOk "m1" "u2") (respBad "u3")
    (respOk "t1" "u4") (respOk "h1" "u5") dashSt0 (by decide)

/-! ### Claim C9 -/

/-- Claim C9 (confirmed): `handlePageChange` with a target page below 1 or
above `ceil(total / limit)` performs no fetch and leaves the transactions
list and the whole pagination state unchanged. -/
theorem page_change_guard (st : HistState) (newPage respTotal : ℤ)
    (respTxs : List String)
    (h : newPage < 1 ∨ jsCeilDiv st.total st.limit < newPage) :
    handlePageChange st newPage respTotal respTxs = (st, false) := by
  simp [handlePageChange, h]

/-- Claim C9 (witness): page 6 of 47 records at limit 10 (5 pages) is
rejected without a fetch. -/
theorem page_change_guard_witness :
    handlePageChange hist0 6 0 [] = (hist0, false) :=
  page_change_guard hist0 6 0 [] (Or.inr (by decide))

/-! ### Claim C10 -/

/-- Claim C10 (counterexample): `formatNumber(null)` throws a TypeError
(`isNaN(null)` is false, and `null.toLocaleString()` is a property access on
null), so the formatters are not total. -/
theorem formatNumber_null_throws_cx : formatNumber JSValue.null = none := rfl

/-- Claim C10 (amended): `formatCurrency` is total and returns the fallback
for every NaN-coercing input, and renders `null` as the same "$0.00" via
number coercion; `formatNumber` returns its fallback for NaN-coercing
inputs but throws exactly on `null`. -/
theorem formatter_fallbacks :
    (∀ v, (formatCurrency v).isSome = true) ∧
    (∀ v, jsIsNaN (coerced v) = true →
      formatCurrency v = some "$0.00" ∧ formatNumber v = some "0") ∧
    (formatCurrency JSValue.null = some "$0.00") ∧
    (∀ v, formatNumber v = none ↔ v = JSValue.null) := by
  refine ⟨?_, ?_, by decide, ?_⟩
  · intro v
    cases hc : jsIsNaN (coerced v) <;> simp [formatCurrency, hc]
  · intro v h
    refine ⟨?_, ?_⟩ <;> simp [formatCurrency, formatNumber, h]
  · intro v
    cases v with
    | str s =>
      rcases h : jsParseFloat s with _ | q <;>
        simp [formatNumber, coerced, toLocaleCall, jsIsNaN, h]
    | null => simp [formatNumber, coerced, toLocaleCall, jsIsNaN]
    | _ => simp [formatNumber, coerced, toLocaleCall, jsIsNaN]

/-- Claim C10 (witness): `undefined` coerces to NaN and both formatters
return their fallbacks. -/
theorem formatter_fallbacks_witness :
    formatCurrency JSValue.undef = some "$0.00" ∧
    formatNumber JSValue.undef = some "0" :=
  formatter_fallbacks.2.1 JSValue.undef (by decide)
